/-
Verification of the thermophysical food-property calculator
(`food_calculator_app.py`) against its natural-language specification.

The calculation core of the program is shallowly embedded over the real
numbers: every Python function at the top of the file becomes a Lean
definition with the same name, the same argument order and the same
branch structure.  Python floats are modelled as exact reals; `np.exp`,
`np.log`, `np.cos`, `np.sin` become `Real.exp`, `Real.log`, `Real.cos`,
`Real.sin`; `np.interp` becomes `interpAux` over the table of
(breakpoint, value) pairs; `np.clip(v, 0, 1)` becomes
`min (max v 0) 1`; the Python paths that call `st.error` and return
`None` become an error outcome.  The source binds
`from scipy.special import jv as J0` and calls `J0` with a single
argument, but `jv` is the two-argument ufunc `jv(v, z)`, so that call
raises an uncaught `TypeError`: the cylinder branch of
`calcular_temperatura_posicion` never computes a Bessel value and is
embedded as a distinct crash outcome.  The three geometry strings of
the source ("Placa Plana", "Cilindro", "Esfera") become the closed
enumeration `Geometria`.
-/
import Mathlib

set_option maxHeartbeats 1600000
set_option maxRecDepth 8000

/-- The three geometry strings accepted by the source. -/
inductive Geometria where
  | placaPlana
  | cilindro
  | esfera
deriving DecidableEq

/-- The `composicion` dictionary of the source: six proximal-composition
percentages. -/
structure Composicion where
  agua : ℝ
  proteina : ℝ
  grasa : ℝ
  carbohidratos : ℝ
  fibra : ℝ
  cenizas : ℝ

/-- Embedding of `sum(composicion.values())` as used by the "Realizar Calculo" handler. -/
def totalComposicion (c : Composicion) : ℝ :=
  c.agua + c.proteina + c.grasa + c.carbohidratos + c.fibra + c.cenizas

/-- Liquid-water density correlation of the source:
`rho_w = 997.18 - 0.0031439*T - 0.0037574*T**2`. -/
def rho_w (T : ℝ) : ℝ := 997.18 - 0.0031439 * T - 0.0037574 * T ^ 2

/-- Liquid-water specific-heat correlation: `cp_w = 4180 - 0.5*T`. -/
def cp_w (T : ℝ) : ℝ := 4180 - 0.5 * T

/-- Liquid-water conductivity correlation: `k_w = 0.56 + 0.0018*T`. -/
def k_w (T : ℝ) : ℝ := 0.56 + 0.0018 * T

/-- Solid-component constants of the source. -/
def rho_prot : ℝ := 1300

def cp_prot : ℝ := 1550

def k_prot : ℝ := 0.25

def rho_fat : ℝ := 920

def cp_fat : ℝ := 1900

def k_fat : ℝ := 0.18

def rho_carb : ℝ := 1600

def cp_carb : ℝ := 1550

def k_carb : ℝ := 0.20

def rho_fiber : ℝ := 1500

def cp_fiber : ℝ := 1350

def k_fiber : ℝ := 0.15

def rho_ash : ℝ := 2000

def cp_ash : ℝ := 820

def k_ash : ℝ := 0.35

/-- Ice constants of the frozen branch. -/
def rho_ice : ℝ := 916.8

def cp_ice : ℝ := 2064

def k_ice : ℝ := 2.22

/-- The unfrozen molar water fraction of the frozen branch of
`calcular_propiedades_alimento`: the guard `T_K <= 0` yields `0.0001`,
otherwise `XA = np.exp((lambda_val/R_gas)*(1/T0_K - 1/T_K))` followed by
the clamp `if XA > 1: XA = 1` (with `lambda_val = 6010`,
`R_gas = 8.314`, `T0_K = 273.15`; `np.exp` never raises on reals, so
the dead `OverflowError` handler has no counterpart). -/
noncomputable def XA (T : ℝ) : ℝ :=
  if T + 273.15 ≤ 0 then 0.0001
  else min (Real.exp ((6010 / 8.314) * (1 / 273.15 - 1 / (T + 273.15)))) 1

/-- Embedding of `calcular_propiedades_alimento(composicion, T, Tf)`, returning
`(densidad, cp, k, alpha_val)`.  The unfrozen branch (`T >= Tf`) sums
the component properties weighted by mass fraction for all three of
density, cp and conductivity.  The frozen branch (`T < Tf`) splits the
water into `fraccion_hielo = mu - mu*XA` and
`fraccion_agua_no_congelada = mu*XA` (with `mu = agua/100`), combines
the densities by the inverse-sum (harmonic) rule guarded by
`sum_inv_rho_frac > 0`, and sums cp and conductivity arithmetically.
`alpha_val = k/(densidad*cp) if (densidad*cp) > 0 else 0`. -/
noncomputable def calcular_propiedades_alimento (c : Composicion) (T Tf : ℝ) :
    ℝ × ℝ × ℝ × ℝ :=
  let densidad :=
    if Tf ≤ T then
      c.agua / 100 * rho_w T + c.proteina / 100 * rho_prot +
        c.grasa / 100 * rho_fat + c.carbohidratos / 100 * rho_carb +
        c.fibra / 100 * rho_fiber + c.cenizas / 100 * rho_ash
    else
      let sum_inv_rho_frac :=
        (c.agua / 100 - c.agua / 100 * XA T) / rho_ice +
          (c.agua / 100 * XA T) / rho_w T +
          c.proteina / 100 / rho_prot + c.grasa / 100 / rho_fat +
          c.carbohidratos / 100 / rho_carb + c.fibra / 100 / rho_fiber +
          c.cenizas / 100 / rho_ash
      if sum_inv_rho_frac > 0 then 1 / sum_inv_rho_frac else 0
  let cp :=
    if Tf ≤ T then
      c.agua / 100 * cp_w T + c.proteina / 100 * cp_prot +
        c.grasa / 100 * cp_fat + c.carbohidratos / 100 * cp_carb +
        c.fibra / 100 * cp_fiber + c.cenizas / 100 * cp_ash
    else
      (c.agua / 100 - c.agua / 100 * XA T) * cp_ice +
        (c.agua / 100 * XA T) * cp_w T +
        c.proteina / 100 * cp_prot + c.grasa / 100 * cp_fat +
        c.carbohidratos / 100 * cp_carb + c.fibra / 100 * cp_fiber +
        c.cenizas / 100 * cp_ash
  let k :=
    if Tf ≤ T then
      c.agua / 100 * k_w T + c.proteina / 100 * k_prot +
        c.grasa / 100 * k_fat + c.carbohidratos / 100 * k_carb +
        c.fibra / 100 * k_fiber + c.cenizas / 100 * k_ash
    else
      (c.agua / 100 - c.agua / 100 * XA T) * k_ice +
        (c.agua / 100 * XA T) * k_w T +
        c.proteina / 100 * k_prot + c.grasa / 100 * k_fat +
        c.carbohidratos / 100 * k_carb + c.fibra / 100 * k_fiber +
        c.cenizas / 100 * k_ash
  let alpha_val := if densidad * cp > 0 then k / (densidad * cp) else 0
  (densidad, cp, k, alpha_val)

/-- The ice state `(fraccion_hielo, fraccion_agua_no_congelada)` derived
inside `calcular_propiedades_alimento`: zero ice and full initial water
in the unfrozen branch `T >= Tf`, and the `XA`-split of the frozen
branch otherwise (`agua` is the water percentage of the composition). -/
noncomputable def iceState (agua T Tf : ℝ) : ℝ × ℝ :=
  if Tf ≤ T then (0, agua / 100)
  else (agua / 100 - agua / 100 * XA T, agua / 100 * XA T)

/-- The result-gating of the "Realizar Calculo" button for the property
calculation types: the composition-sum check
`abs(total_composicion - 100.0) > 0.01` halts with an error before
`calcular_propiedades_alimento` is called. -/
noncomputable def realizarCalculoPropiedades (c : Composicion) (T Tf : ℝ) :
    Option (ℝ × ℝ × ℝ × ℝ) :=
  if |totalComposicion c - 100| > 0.01 then none
  else some (calcular_propiedades_alimento c T Tf)

/-- Embedding of `np.interp(x, xp, fp)` over the table of `(xp[i], fp[i])` pairs:
clamped to the first value below the first breakpoint and to the last
value above the last one, linear between bracketing breakpoints. -/
noncomputable def interpAux (x : ℝ) : List (ℝ × ℝ) → ℝ
  | [] => 0
  | [p] => p.2
  | p :: q :: l =>
    if x ≤ p.1 then p.2
    else if x ≤ q.1 then p.2 + (x - p.1) * (q.2 - p.2) / (q.1 - p.1)
    else interpAux x (q :: l)

/-- The slab table of `calcular_lambda1_A1`, zipped as
`(bi_vals[i], lambda1_vals[i])`. -/
def placa_l1_tab : List (ℝ × ℝ) :=
  [(0.01, 0.0998), (0.02, 0.1410), (0.04, 0.1987), (0.06, 0.2425),
   (0.08, 0.2791), (0.1, 0.3111), (0.2, 0.4328), (0.4, 0.6115),
   (0.6, 0.7496), (0.8, 0.8603), (1.0, 0.9408), (2.0, 1.1593),
   (3.0, 1.2746), (4.0, 1.3525), (5.0, 1.4078), (8.0, 1.4961),
   (10.0, 1.5202), (20.0, 1.5585), (30.0, 1.5694), (40.0, 1.5707),
   (50.0, 1.5707), (100.0, 1.5708), (500.0, 1.5708), (1000.0, 1.5708)]

/-- The slab table zipped as `(bi_vals[i], A1_vals[i])`. -/
def placa_A1_tab : List (ℝ × ℝ) :=
  [(0.01, 1.0000), (0.02, 1.0001), (0.04, 1.0002), (0.06, 1.0003),
   (0.08, 1.0005), (0.1, 1.0006), (0.2, 1.0016), (0.4, 1.0063),
   (0.6, 1.0140), (0.8, 1.0247), (1.0, 1.0385), (2.0, 1.1145),
   (3.0, 1.1895), (4.0, 1.2621), (5.0, 1.3315), (8.0, 1.4800),
   (10.0, 1.5471), (20.0, 1.7240), (30.0, 1.8080), (40.0, 1.8540),
   (50.0, 1.8840), (100.0, 1.9780), (500.0, 1.9999), (1000.0, 2.0000)]

/-- The cylinder table zipped as `(bi_vals[i], lambda1_vals[i])`. -/
def cilindro_l1_tab : List (ℝ × ℝ) :=
  [(0.01, 0.1412), (0.02, 0.1995), (0.04, 0.2814), (0.06, 0.3430),
   (0.08, 0.3951), (0.1, 0.4388), (0.2, 0.6170), (0.4, 0.8516),
   (0.6, 0.9926), (0.8, 1.1081), (1.0, 1.2558), (2.0, 1.4793),
   (3.0, 1.6373), (4.0, 1.7640), (5.0, 1.8710), (8.0, 2.0720),
   (10.0, 2.1795), (20.0, 2.3486), (30.0, 2.3809), (40.0, 2.3924),
   (50.0, 2.3972), (100.0, 2.4029), (500.0, 2.4048), (1000.0, 2.4048)]

/-- The cylinder table zipped as `(bi_vals[i], A1_vals[i])`. -/
def cilindro_A1_tab : List (ℝ × ℝ) :=
  [(0.01, 1.0000), (0.02, 1.0001), (0.04, 1.0003), (0.06, 1.0005),
   (0.08, 1.0008), (0.1, 1.0011), (0.2, 1.0040), (0.4, 1.0159),
   (0.6, 1.0311), (0.8, 1.0494), (1.0, 1.0701), (2.0, 1.1643),
   (3.0, 1.2488), (4.0, 1.3259), (5.0, 1.3965), (8.0, 1.5791),
   (10.0, 1.6934), (20.0, 1.9472), (30.0, 2.0768), (40.0, 2.1461),
   (50.0, 2.1899), (100.0, 2.3168), (500.0, 2.4020), (1000.0, 2.4020)]

/-- The sphere table zipped as `(bi_vals[i], lambda1_vals[i])`. -/
def esfera_l1_tab : List (ℝ × ℝ) :=
  [(0.01, 0.1730), (0.02, 0.2445), (0.04, 0.3450), (0.06, 0.4206),
   (0.08, 0.4841), (0.1, 0.5375), (0.2, 0.7593), (0.4, 1.0767),
   (0.6, 1.3037), (0.8, 1.4962), (1.0, 1.5708), (2.0, 2.0288),
   (3.0, 2.2789), (4.0, 2.4566), (5.0, 2.5704), (8.0, 2.7661),
   (10.0, 2.8363), (20.0, 2.9730), (30.0, 3.0200), (40.0, 3.0450),
   (50.0, 3.0590), (100.0, 3.0900), (500.0, 3.1416), (1000.0, 3.1416)]

/-- The sphere table zipped as `(bi_vals[i], A1_vals[i])`. -/
def esfera_A1_tab : List (ℝ × ℝ) :=
  [(0.01, 1.0000), (0.02, 1.0001), (0.04, 1.0003), (0.06, 1.0006),
   (0.08, 1.0010), (0.1, 1.0015), (0.2, 1.0059), (0.4, 1.0232),
   (0.6, 1.0505), (0.8, 1.0852), (1.0, 1.1275), (2.0, 1.3090),
   (3.0, 1.4793), (4.0, 1.6373), (5.0, 1.7820), (8.0, 2.1130),
   (10.0, 2.2980), (20.0, 2.7560), (30.0, 2.9340), (40.0, 3.0260),
   (50.0, 3.0800), (100.0, 3.1400), (500.0, 3.1416), (1000.0, 3.1416)]

/-- Embedding of `calcular_lambda1_A1(Bi, geometria)`, returning `(lambda1, A1)`:
the lumped-capacitance branch for `Bi < 0.001`, the constant-surface
closed forms for `Bi > 1000`, and `np.interp` over the Heisler tables
in between. -/
noncomputable def calcular_lambda1_A1 (Bi : ℝ) (g : Geometria) : ℝ × ℝ :=
  if Bi < 0.001 then (0.001, 1.0)
  else if Bi > 1000 then
    match g with
    | Geometria.placaPlana => (Real.pi / 2, 4 / Real.pi)
    | Geometria.cilindro => (2.4048, 2 / 2.4048)
    | Geometria.esfera => (Real.pi, 2)
  else
    match g with
    | Geometria.placaPlana => (interpAux Bi placa_l1_tab, interpAux Bi placa_A1_tab)
    | Geometria.cilindro => (interpAux Bi cilindro_l1_tab, interpAux Bi cilindro_A1_tab)
    | Geometria.esfera => (interpAux Bi esfera_l1_tab, interpAux Bi esfera_A1_tab)

/-- The tuple returned by `calcular_temperatura_final_punto_frio`:
`(T_final_centro, Fo, Bi, A1, lambda1)`. -/
structure HeislerResult where
  T : ℝ
  Fo : ℝ
  Bi : ℝ
  A1 : ℝ
  lambda1 : ℝ

/-- The tuple returned by `calcular_tiempo_para_temperatura`:
`(t_minutos, Fo, Bi, A1, lambda1)`. -/
structure TiempoResult where
  t_minutos : ℝ
  Fo : ℝ
  Bi : ℝ
  A1 : ℝ
  lambda1 : ℝ

/-- The tuple returned by `calcular_temperatura_posicion`:
`(T_final_x, Fo, Bi, A1, lambda1, position_factor)`. -/
structure PosResult where
  T : ℝ
  Fo : ℝ
  Bi : ℝ
  A1 : ℝ
  lambda1 : ℝ
  factor : ℝ

/-- Outcome of `calcular_temperatura_posicion`: `error` for the
`st.error`-and-`return None` paths, `crash` for the uncaught
`TypeError` raised by the cylinder dispatch (the source calls
`J0 = scipy.special.jv` with one argument where `jv(v, z)` needs two),
and `ok` for a normal `(T_final_x, Fo, Bi, A1, lambda1,
position_factor)` tuple. -/
inductive PosOutcome where
  | error
  | crash
  | ok (r : PosResult)

/-- Embedding of `calcular_temperatura_final_punto_frio(t_segundos, T_inicial_alimento,
T_medio, alpha_alimento_medio, k_alimento_medio, h, geometria,
dimension_a)`.  `Lc = dimension_a` for all three geometries;
`theta_theta_i = np.clip(A1*np.exp(-lambda1**2*Fo), 0, 1)`; the
equal-temperature warning path returns `T_inicial` with the other
quantities unchanged. -/
noncomputable def calcular_temperatura_final_punto_frio
    (t_segundos T_inicial T_medio alpha k h : ℝ) (g : Geometria) (a : ℝ) :
    Option HeislerResult :=
  if a = 0 then none
  else if k = 0 then none
  else
    if T_inicial - T_medio = 0 then
      some ⟨T_inicial, alpha * t_segundos / a ^ 2, h * a / k,
            (calcular_lambda1_A1 (h * a / k) g).2, (calcular_lambda1_A1 (h * a / k) g).1⟩
    else
      some ⟨T_medio +
              min (max ((calcular_lambda1_A1 (h * a / k) g).2 *
                Real.exp (-(calcular_lambda1_A1 (h * a / k) g).1 ^ 2 *
                  (alpha * t_segundos / a ^ 2))) 0) 1 * (T_inicial - T_medio),
            alpha * t_segundos / a ^ 2, h * a / k,
            (calcular_lambda1_A1 (h * a / k) g).2, (calcular_lambda1_A1 (h * a / k) g).1⟩

/-- Embedding of `calcular_tiempo_para_temperatura(T_final_alimento,
T_inicial_alimento, T_medio, alpha_alimento_medio, k_alimento_medio, h,
geometria, dimension_a)`: the equal-temperature path returns the tuple
`(0, 0, 0, 0, 0)`; the four heating/cooling target-range checks, the
`log_arg <= 0` check and the `Fo < 0` check return an error; the result
is `(t_segundos/60, Fo, Bi, A1, lambda1)` with `t_segundos =
Fo*Lc**2/alpha`. -/
noncomputable def calcular_tiempo_para_temperatura
    (T_final T_inicial T_medio alpha k h : ℝ) (g : Geometria) (a : ℝ) :
    Option TiempoResult :=
  if a = 0 then none
  else if T_inicial - T_medio = 0 then some ⟨0, 0, 0, 0, 0⟩
  else if T_medio > T_inicial ∧ T_final < T_inicial then none
  else if T_medio > T_inicial ∧ T_final > T_medio then none
  else if T_medio < T_inicial ∧ T_final > T_inicial then none
  else if T_medio < T_inicial ∧ T_final < T_medio then none
  else if k = 0 then none
  else
    if T_inicial - T_medio = 0 then none
    else
      let log_arg := (T_final - T_medio) / (T_inicial - T_medio) /
        (calcular_lambda1_A1 (h * a / k) g).2
      if log_arg ≤ 0 then none
      else
        let Fo := -(1 / (calcular_lambda1_A1 (h * a / k) g).1 ^ 2) * Real.log log_arg
        if Fo < 0 then none
        else if alpha = 0 then none
        else some ⟨Fo * a ^ 2 / alpha / 60, Fo, h * a / k,
                   (calcular_lambda1_A1 (h * a / k) g).2,
                   (calcular_lambda1_A1 (h * a / k) g).1⟩

/-- Embedding of `calcular_temperatura_posicion(t_segundos, T_inicial_alimento,
T_medio, alpha_alimento_medio, k_alimento_medio, h, geometria,
dimension_a, posicion_x)`: the position checks `x > a` and `x < 0`
error; the equal-temperature path returns the factor `1.0` before the
geometry dispatch; otherwise the unclipped centre ratio
`A1*np.exp(-lambda1**2*Fo)` is combined with `position_factor =
np.clip(raw, 0, 1)` where `raw` is `np.cos(lambda1*x/Lc)` for the slab
and, for the sphere, `1.0` under the `np.isclose(u, 0)` guard
(absolute tolerance `1e-8` against `0`) and `np.sin(u)/u` beyond it.
The cylinder dispatch `J0(lambda1 * x_over_Lc)` calls
`scipy.special.jv` with a single argument and raises an uncaught
`TypeError`, so no cylinder factor is ever computed: that path is the
`crash` outcome. -/
noncomputable def calcular_temperatura_posicion
    (t_segundos T_inicial T_medio alpha k h : ℝ) (g : Geometria) (a x : ℝ) :
    PosOutcome :=
  if a = 0 then PosOutcome.error
  else if x > a then PosOutcome.error
  else if x < 0 then PosOutcome.error
  else if k = 0 then PosOutcome.error
  else
    if T_inicial - T_medio = 0 then
      PosOutcome.ok ⟨T_inicial, alpha * t_segundos / a ^ 2, h * a / k,
            (calcular_lambda1_A1 (h * a / k) g).2,
            (calcular_lambda1_A1 (h * a / k) g).1, 1.0⟩
    else if a = 0 then PosOutcome.error
    else
      match g with
      | Geometria.placaPlana =>
        PosOutcome.ok ⟨T_medio +
              ((calcular_lambda1_A1 (h * a / k) Geometria.placaPlana).2 *
                Real.exp (-(calcular_lambda1_A1 (h * a / k) Geometria.placaPlana).1 ^ 2 *
                  (alpha * t_segundos / a ^ 2))) *
              (min (max (Real.cos ((calcular_lambda1_A1 (h * a / k) Geometria.placaPlana).1 *
                (x / a))) 0) 1) * (T_inicial - T_medio),
            alpha * t_segundos / a ^ 2, h * a / k,
            (calcular_lambda1_A1 (h * a / k) Geometria.placaPlana).2,
            (calcular_lambda1_A1 (h * a / k) Geometria.placaPlana).1,
            min (max (Real.cos ((calcular_lambda1_A1 (h * a / k) Geometria.placaPlana).1 *
              (x / a))) 0) 1⟩
      | Geometria.cilindro => PosOutcome.crash
      | Geometria.esfera =>
        PosOutcome.ok ⟨T_medio +
              ((calcular_lambda1_A1 (h * a / k) Geometria.esfera).2 *
                Real.exp (-(calcular_lambda1_A1 (h * a / k) Geometria.esfera).1 ^ 2 *
                  (alpha * t_segundos / a ^ 2))) *
              (min (max (if |(calcular_lambda1_A1 (h * a / k) Geometria.esfera).1 * (x / a)| ≤ 1e-8
                  then 1.0
                  else Real.sin ((calcular_lambda1_A1 (h * a / k) Geometria.esfera).1 * (x / a)) /
                    ((calcular_lambda1_A1 (h * a / k) Geometria.esfera).1 * (x / a))) 0) 1) *
              (T_inicial - T_medio),
            alpha * t_segundos / a ^ 2, h * a / k,
            (calcular_lambda1_A1 (h * a / k) Geometria.esfera).2,
            (calcular_lambda1_A1 (h * a / k) Geometria.esfera).1,
            min (max (if |(calcular_lambda1_A1 (h * a / k) Geometria.esfera).1 * (x / a)| ≤ 1e-8
                then 1.0
                else Real.sin ((calcular_lambda1_A1 (h * a / k) Geometria.esfera).1 * (x / a)) /
                  ((calcular_lambda1_A1 (h * a / k) Geometria.esfera).1 * (x / a))) 0) 1⟩

/-- Embedding of `calcular_tiempo_congelacion_plank(Tf_input,
T_ambiente_congelacion, h_congelacion, k_alimento_congelado, L_e,
geometria_plank, dimension_a_plank)`, returning
`(t_minutos_plank, P_plank, R_plank, L_e)`.  The precondition
`Tf_input <= T_ambiente_congelacion` errors (as does the redundant
`delta_T <= 0` recheck), then `h == 0` and `kf == 0` error, and
`t = (Le/delta_T)*(P*a/h + R*a**2/kf)` is returned in minutes. -/
noncomputable def calcular_tiempo_congelacion_plank
    (Tf_input T_ambiente h_congelacion k_congelado L_e : ℝ) (g : Geometria)
    (a : ℝ) : Option (ℝ × ℝ × ℝ × ℝ) :=
  if a = 0 then none
  else if Tf_input ≤ T_ambiente then none
  else
    let P_plank : ℝ := match g with
      | Geometria.placaPlana => 0.5
      | Geometria.cilindro => 0.25
      | Geometria.esfera => 0.1667
    let R_plank : ℝ := match g with
      | Geometria.placaPlana => 0.125
      | Geometria.cilindro => 0.0625
      | Geometria.esfera => 0.0417
    if Tf_input - T_ambiente ≤ 0 then none
    else if h_congelacion = 0 then none
    else if k_congelado = 0 then none
    else some (L_e / (Tf_input - T_ambiente) *
                 (P_plank * a / h_congelacion + R_plank * a ^ 2 / k_congelado) / 60,
               P_plank, R_plank, L_e)

/-! ### Helper lemmas about the embedded definitions -/

lemma interpAux_pos (x : ℝ) :
    ∀ l : List (ℝ × ℝ), l ≠ [] → List.Chain' (fun p q => p.1 < q.1) l →
      (∀ p ∈ l, 0 < p.2) → 0 < interpAux x l := by
  intro l
  induction l with
  | nil => intro h; exact absurd rfl h
  | cons p tail ih =>
    intro _ hc hp
    cases tail with
    | nil => simpa [interpAux] using hp p (by simp)
    | cons q l2 =>
      rw [interpAux]
      have hpq : p.1 < q.1 := (List.chain'_cons.mp hc).1
      by_cases h1 : x ≤ p.1
      · simpa [h1] using hp p (by simp)
      · by_cases h2 : x ≤ q.1
        · rw [if_neg h1, if_pos h2]
          have hne : q.1 - p.1 ≠ 0 := ne_of_gt (by linarith)
          have hkey : p.2 + (x - p.1) * (q.2 - p.2) / (q.1 - p.1) =
              ((q.1 - x) * p.2 + (x - p.1) * q.2) / (q.1 - p.1) := by
            field_simp
            ring
          rw [hkey]
          apply div_pos
          · have hx0 : p.1 < x := lt_of_not_le h1
            have hy0 : 0 < p.2 := hp p (by simp)
            have hy1 : 0 < q.2 := hp q (by simp)
            nlinarith
          · linarith
        · rw [if_neg h1, if_neg h2]
          exact ih (by simp) (List.chain'_cons.mp hc).2
            (fun r hr => hp r (List.mem_cons_of_mem p hr))

lemma placa_l1_chain : List.Chain' (fun p q : ℝ × ℝ => p.1 < q.1) placa_l1_tab := by
  norm_num [placa_l1_tab, List.chain'_cons]

lemma placa_A1_chain : List.Chain' (fun p q : ℝ × ℝ => p.1 < q.1) placa_A1_tab := by
  norm_num [placa_A1_tab, List.chain'_cons]

lemma cilindro_l1_chain : List.Chain' (fun p q : ℝ × ℝ => p.1 < q.1) cilindro_l1_tab := by
  norm_num [cilindro_l1_tab, List.chain'_cons]

lemma cilindro_A1_chain : List.Chain' (fun p q : ℝ × ℝ => p.1 < q.1) cilindro_A1_tab := by
  norm_num [cilindro_A1_tab, List.chain'_cons]

lemma esfera_l1_chain : List.Chain' (fun p q : ℝ × ℝ => p.1 < q.1) esfera_l1_tab := by
  norm_num [esfera_l1_tab, List.chain'_cons]

lemma esfera_A1_chain : List.Chain' (fun p q : ℝ × ℝ => p.1 < q.1) esfera_A1_tab := by
  norm_num [esfera_A1_tab, List.chain'_cons]

lemma placa_l1_pos : ∀ p ∈ placa_l1_tab, 0 < p.2 := by
  intro p hp
  fin_cases hp <;> norm_num

lemma placa_A1_pos : ∀ p ∈ placa_A1_tab, 0 < p.2 := by
  intro p hp
  fin_cases hp <;> norm_num

lemma cilindro_l1_pos : ∀ p ∈ cilindro_l1_tab, 0 < p.2 := by
  intro p hp
  fin_cases hp <;> norm_num

lemma cilindro_A1_pos : ∀ p ∈ cilindro_A1_tab, 0 < p.2 := by
  intro p hp
  fin_cases hp <;> norm_num

lemma esfera_l1_pos : ∀ p ∈ esfera_l1_tab, 0 < p.2 := by
  intro p hp
  fin_cases hp <;> norm_num

lemma esfera_A1_pos : ∀ p ∈ esfera_A1_tab, 0 < p.2 := by
  intro p hp
  fin_cases hp <;> norm_num

/-- Every `(lambda1, A1)` pair the lookup can produce is strictly
positive, whatever the Biot number. -/
lemma calcular_lambda1_A1_pos (Bi : ℝ) (g : Geometria) :
    0 < (calcular_lambda1_A1 Bi g).1 ∧ 0 < (calcular_lambda1_A1 Bi g).2 := by
  unfold calcular_lambda1_A1
  by_cases h1 : Bi < 0.001
  · rw [if_pos h1]
    norm_num
  · rw [if_neg h1]
    by_cases h2 : Bi > 1000
    · rw [if_pos h2]
      cases g <;> constructor <;> simp <;> positivity
    · rw [if_neg h2]
      cases g
      · exact ⟨interpAux_pos Bi _ (by simp [placa_l1_tab]) placa_l1_chain placa_l1_pos,
               interpAux_pos Bi _ (by simp [placa_A1_tab]) placa_A1_chain placa_A1_pos⟩
      · exact ⟨interpAux_pos Bi _ (by simp [cilindro_l1_tab]) cilindro_l1_chain cilindro_l1_pos,
               interpAux_pos Bi _ (by simp [cilindro_A1_tab]) cilindro_A1_chain cilindro_A1_pos⟩
      · exact ⟨interpAux_pos Bi _ (by simp [esfera_l1_tab]) esfera_l1_chain esfera_l1_pos,
               interpAux_pos Bi _ (by simp [esfera_A1_tab]) esfera_A1_chain esfera_A1_pos⟩

lemma XA_pos (T : ℝ) : 0 < XA T := by
  unfold XA
  split
  · norm_num
  · exact lt_min (Real.exp_pos _) one_pos

lemma XA_le_one (T : ℝ) : XA T ≤ 1 := by
  unfold XA
  split
  · norm_num
  · exact min_le_right _ _

/-- Below 0 degrees C (and above absolute zero) the clamped molar
fraction of unfrozen water is strictly below 1. -/
lemma XA_lt_one (T : ℝ) (hT : T < 0) : XA T < 1 := by
  unfold XA
  split
  · norm_num
  · rename_i hk
    push_neg at hk
    refine min_lt_iff.mpr (Or.inl ?_)
    rw [Real.exp_lt_one_iff]
    have hlt : 1 / 273.15 < 1 / (T + 273.15) :=
      one_div_lt_one_div_of_lt hk (by linarith)
    have hcoef : (0:ℝ) < 6010 / 8.314 := by norm_num
    nlinarith

/-- The clamped molar fraction of unfrozen water is monotone in the
temperature on the domain above absolute zero. -/
lemma XA_mono (T1 T2 : ℝ) (h1 : -273.15 < T1) (h12 : T1 ≤ T2) : XA T1 ≤ XA T2 := by
  have hk1 : 0 < T1 + 273.15 := by linarith
  have hk2 : 0 < T2 + 273.15 := by linarith
  unfold XA
  rw [if_neg (by linarith), if_neg (by linarith)]
  refine min_le_min ?_ le_rfl
  rw [Real.exp_le_exp]
  have hle : 1 / (T2 + 273.15) ≤ 1 / (T1 + 273.15) :=
    one_div_le_one_div_of_le hk1 (by linarith)
  nlinarith


/-! ### C4: Planck freezing time at Tf = Ta -/

/-- C4 counterexample: at the degenerate point Tf = Ta = -2 (with h = 20,
k_f = 1, Le = 100, a = 0.02 > 0) `calcular_tiempo_congelacion_plank`
returns the error signal `none`, not a +infinity value: the claim that
it "returns +infinity rather than ... returning an error signal" is
false on the code. -/
theorem C4_counterexample :
    calcular_tiempo_congelacion_plank (-2) (-2) 20 1 100 Geometria.placaPlana 0.02 = none := by
  unfold calcular_tiempo_congelacion_plank
  rw [if_neg (by norm_num), if_pos (by norm_num)]

/-- C4 amended: whenever the freezing point does not exceed the medium
temperature (including the degenerate case Tf = Ta), the Planck
computation reports an explicit error (`none`), for every composition
input, convection coefficient, conductivity, latent heat, geometry and
dimension. -/
theorem C4_plank_degenerate (Tf Ta h kf Le a : ℝ) (g : Geometria)
    (hle : Tf ≤ Ta) :
    calcular_tiempo_congelacion_plank Tf Ta h kf Le g a = none := by
  unfold calcular_tiempo_congelacion_plank
  by_cases ha : a = 0
  · rw [if_pos ha]
  · rw [if_neg ha, if_pos hle]

/-- C4 witness: the amended statement at Tf = Ta = -5. -/
theorem C4_witness :
    ((-5:ℝ) ≤ -5) ∧
    calcular_tiempo_congelacion_plank (-5) (-5) 10 2 50 Geometria.esfera 0.01 = none :=
  ⟨le_refl _, C4_plank_degenerate (-5) (-5) 10 2 50 0.01 Geometria.esfera (le_refl _)⟩

/-! ### C8: ice fraction at the guard points -/

/-- C8 counterexample: at T = -300 (so T_K = -26.85 <= 0) with water
100 % and Tf = -1, the guarded computation sets XA = 0.0001 and returns
the ice fraction 0.9999, not the 0 the claim states. -/
theorem C8_counterexample :
    ((-300:ℝ) + 273.15 ≤ 0) ∧ (iceState 100 (-300) (-1)).1 = 0.9999 ∧
      (0.9999:ℝ) ≠ 0 := by
  refine ⟨by norm_num, ?_, by norm_num⟩
  unfold iceState XA
  rw [if_neg (by norm_num), if_pos (by norm_num)]
  norm_num

/-- C8 amended: at Tf - T = 0 the unfrozen branch applies and the ice
fraction is 0; at T_K = T + 273.15 <= 0 (inside the frozen branch) the
guard avoids the division by T_K and yields XA = 0.0001, hence the ice
fraction (w/100)*(1 - 0.0001) -- close to full freezing, not 0 -- and
no exception in either case (the embedding is total). -/
theorem C8_guard_values (w T Tf : ℝ) :
    (T = Tf → (iceState w T Tf).1 = 0) ∧
    (T < Tf → T + 273.15 ≤ 0 →
      (iceState w T Tf).1 = w / 100 * (1 - 0.0001)) := by
  constructor
  · intro h
    unfold iceState
    rw [if_pos (le_of_eq h.symm)]
  · intro h hk
    unfold iceState XA
    rw [if_neg (not_le.mpr h), if_pos hk]
    ring

/-! ### C9: composition-sum validation -/

/-- C9 counterexample: on a composition summing to 50 the aggregator
`calcular_propiedades_alimento` performs the property arithmetic and
returns a density (here 0.5 * rho_w(20) = 497.807081) instead of
rejecting the non-normalized composition. -/
theorem C9_counterexample :
    |totalComposicion ⟨50, 0, 0, 0, 0, 0⟩ - 100| > 0.01 ∧
    (calcular_propiedades_alimento ⟨50, 0, 0, 0, 0, 0⟩ 20 (-1)).1 = 497.807081 := by
  constructor
  · norm_num [totalComposicion]
  · norm_num [calcular_propiedades_alimento, rho_w, rho_prot, rho_fat, rho_carb,
      rho_fiber, rho_ash]

/-- C9 amended: the validation lives in the "Realizar Calculo" button
handler, not in the aggregator: the handler halts with an error before
calling `calcular_propiedades_alimento` whenever the six percentages
deviate from 100 by more than 0.01. -/
theorem C9_handler_validates (c : Composicion) (T Tf : ℝ)
    (h : |totalComposicion c - 100| > 0.01) :
    realizarCalculoPropiedades c T Tf = none := by
  unfold realizarCalculoPropiedades
  rw [if_pos h]

/-- C9 witness: the handler rejects a composition summing to 60. -/
theorem C9_witness :
    |totalComposicion ⟨50, 10, 0, 0, 0, 0⟩ - 100| > 0.01 ∧
    realizarCalculoPropiedades ⟨50, 10, 0, 0, 0, 0⟩ 20 (-1) = none :=
  ⟨by norm_num [totalComposicion],
   C9_handler_validates ⟨50, 10, 0, 0, 0, 0⟩ 20 (-1) (by norm_num [totalComposicion])⟩

/-! ### C2: density combination rule -/

/-- C2, evaluating the code at the failing input: on the composition
{agua 50, proteina 50} (summing to 100) at T = 20 >= Tf = -1, the
unfrozen branch returns the arithmetic mass-weighted density
0.5*rho_w(20) + 0.5*1300 = 1147.807081, and that value does not satisfy
the harmonic-mean relation rho * (X_w/rho_w + X_p/rho_p) = 1 that the
claim (and the equation displayed by the program's own documentation
tab) states. -/
theorem C2_unfrozen_density_eval :
    (calcular_propiedades_alimento ⟨50, 50, 0, 0, 0, 0⟩ 20 (-1)).1 = 1147.807081 ∧
    1147.807081 * (50 / 100 / rho_w 20 + 50 / 100 / rho_prot) ≠ 1 := by
  constructor
  · norm_num [calcular_propiedades_alimento, rho_w, rho_prot, rho_fat, rho_carb,
      rho_fiber, rho_ash]
  · norm_num [rho_w, rho_prot]

/-! ### C5: Heisler coefficient limits at the Biot extremes -/

/-- C5, evaluating the lookup at the failing inputs: the closed-form
branch just above Bi = 1000 returns the documented slab limit
A1 = 4/pi, but the tabulated A1 at the extreme breakpoint Bi = 1000 is
2.0 for the slab (off by more than 0.7), 2.4020 for the cylinder
(against the code's own commented limit 2/2.4048, off by more than
1.5), and 3.1416 for the sphere (against the limit 2, off by more than
1): the tabulated values at the extreme breakpoint are not consistent
with the asymptotic limits. -/
theorem C5_tabla_extremo_eval :
    (calcular_lambda1_A1 1000 Geometria.placaPlana).2 = 2 ∧
    (calcular_lambda1_A1 1001 Geometria.placaPlana).2 = 4 / Real.pi ∧
    0.7 < 2 - 4 / Real.pi ∧
    (calcular_lambda1_A1 1000 Geometria.cilindro).2 = 2.4020 ∧
    (1.5:ℝ) < 2.4020 - 2 / 2.4048 ∧
    (calcular_lambda1_A1 1000 Geometria.esfera).2 = 3.1416 ∧
    (1:ℝ) < 3.1416 - 2 := by
  refine ⟨?_, ?_, ?_, ?_, ?_, ?_, ?_⟩
  · norm_num [calcular_lambda1_A1, interpAux, placa_A1_tab]
  · norm_num [calcular_lambda1_A1]
  · have hpi := Real.pi_gt_d6
    have h4 : 4 / Real.pi < 1.3 := by
      rw [div_lt_iff₀ Real.pi_pos]
      nlinarith
    linarith
  · norm_num [calcular_lambda1_A1, interpAux, cilindro_A1_tab]
  · norm_num
  · norm_num [calcular_lambda1_A1, interpAux, esfera_A1_tab]
  · norm_num

/-! ### C6: where the water phase branch lives -/

/-- C6 counterexample: at T = -3 < 0 the claim says the ice-correlation
branch applies independently of Tf; but with Tf = -5 the code returns
the pure liquid-water specific heat cp_w(-3) = 4181.5 (no ice constant
enters), while with Tf = -1 it returns a strictly smaller value (the
ice split), so the branch depends on Tf and is not taken at T < 0. -/
theorem C6_counterexample :
    ((-3:ℝ) < 0) ∧
    (calcular_propiedades_alimento ⟨100, 0, 0, 0, 0, 0⟩ (-3) (-5)).2.1 = 4181.5 ∧
    (calcular_propiedades_alimento ⟨100, 0, 0, 0, 0, 0⟩ (-3) (-1)).2.1 < 4181.5 := by
  refine ⟨by norm_num, ?_, ?_⟩
  · norm_num [calcular_propiedades_alimento, cp_w, cp_prot, cp_fat, cp_carb,
      cp_fiber, cp_ash]
  · have hXA1 := XA_lt_one (-3) (by norm_num)
    have hXA0 := XA_pos (-3)
    simp only [calcular_propiedades_alimento]
    norm_num [cp_w, cp_ice, cp_prot, cp_fat, cp_carb, cp_fiber, cp_ash]
    nlinarith

/-- C6 amended: the liquid/ice split of the water properties is
governed by the ice state, which switches at T = Tf (not at T = 0),
for all three properties.  Specific heat and conductivity returned by
`calcular_propiedades_alimento` equal `Xi*ice-constant + Xu*liquid
correlation(T) + solids` at every temperature, with the ice constants
2064 and 2.22; the density uses the liquid correlation `rho_w(T)` for
all the water when T >= Tf (even at T < 0), and for T < Tf the
reciprocal-density sum splits the water into `Xi/rho_ice` (the ice
constant 916.8) and `Xu/rho_w(T)`, the returned density being its
inverse whenever the sum is positive; and Xi = 0 whenever T >= Tf.
In particular the liquid-water correlations are used for the unfrozen
water at every temperature, ice enters only through constants, and for
Tf <= T < 0 no ice term appears at all. -/
theorem C6_branch_at_Tf (c : Composicion) (T Tf : ℝ) :
    (Tf ≤ T → (calcular_propiedades_alimento c T Tf).1 =
      c.agua / 100 * rho_w T +
        (c.proteina / 100 * rho_prot + c.grasa / 100 * rho_fat +
         c.carbohidratos / 100 * rho_carb + c.fibra / 100 * rho_fiber +
         c.cenizas / 100 * rho_ash)) ∧
    (T < Tf →
      0 < (iceState c.agua T Tf).1 / rho_ice + (iceState c.agua T Tf).2 / rho_w T +
        (c.proteina / 100 / rho_prot + c.grasa / 100 / rho_fat +
         c.carbohidratos / 100 / rho_carb + c.fibra / 100 / rho_fiber +
         c.cenizas / 100 / rho_ash) →
      (calcular_propiedades_alimento c T Tf).1 *
        ((iceState c.agua T Tf).1 / rho_ice + (iceState c.agua T Tf).2 / rho_w T +
         (c.proteina / 100 / rho_prot + c.grasa / 100 / rho_fat +
          c.carbohidratos / 100 / rho_carb + c.fibra / 100 / rho_fiber +
          c.cenizas / 100 / rho_ash)) = 1) ∧
    (calcular_propiedades_alimento c T Tf).2.1 =
      (iceState c.agua T Tf).1 * cp_ice + (iceState c.agua T Tf).2 * cp_w T +
        (c.proteina / 100 * cp_prot + c.grasa / 100 * cp_fat +
         c.carbohidratos / 100 * cp_carb + c.fibra / 100 * cp_fiber +
         c.cenizas / 100 * cp_ash) ∧
    (calcular_propiedades_alimento c T Tf).2.2.1 =
      (iceState c.agua T Tf).1 * k_ice + (iceState c.agua T Tf).2 * k_w T +
        (c.proteina / 100 * k_prot + c.grasa / 100 * k_fat +
         c.carbohidratos / 100 * k_carb + c.fibra / 100 * k_fiber +
         c.cenizas / 100 * k_ash) ∧
    (Tf ≤ T → (iceState c.agua T Tf).1 = 0) := by
  unfold calcular_propiedades_alimento iceState
  by_cases h : Tf ≤ T
  · simp only [if_pos h]
    exact ⟨fun _ => by ring, fun hlt => absurd h (not_le.mpr hlt),
           by ring, by ring, fun _ => trivial⟩
  · simp only [if_neg h]
    refine ⟨fun hh => absurd hh h, ?_, by ring, by ring, fun hh => absurd hh h⟩
    intro _ hpos
    have hs : (c.agua / 100 - c.agua / 100 * XA T) / rho_ice +
        c.agua / 100 * XA T / rho_w T +
        c.proteina / 100 / rho_prot + c.grasa / 100 / rho_fat +
        c.carbohidratos / 100 / rho_carb + c.fibra / 100 / rho_fiber +
        c.cenizas / 100 / rho_ash =
        (c.agua / 100 - c.agua / 100 * XA T) / rho_ice +
        c.agua / 100 * XA T / rho_w T +
        (c.proteina / 100 / rho_prot + c.grasa / 100 / rho_fat +
         c.carbohidratos / 100 / rho_carb + c.fibra / 100 / rho_fiber +
         c.cenizas / 100 / rho_ash) := by ring
    rw [hs, if_pos hpos]
    exact one_div_mul_cancel (ne_of_gt hpos)

/-! ### C7: ice-state invariants -/

/-- The invariant package of the ice state at one input: partition of
the initial water fraction, bounds, no ice at or above Tf, strictly
positive ice below Tf when there is water and T < 0, and monotone
growth of the ice fraction as the temperature drops (above absolute
zero). -/
def IceInvariant (w T Tf : ℝ) : Prop :=
  (iceState w T Tf).1 + (iceState w T Tf).2 = w / 100 ∧
  0 ≤ (iceState w T Tf).1 ∧ (iceState w T Tf).1 ≤ w / 100 ∧
  0 ≤ (iceState w T Tf).2 ∧ (iceState w T Tf).2 ≤ w / 100 ∧
  (Tf ≤ T → (iceState w T Tf).1 = 0) ∧
  (0 < w → T < Tf → T < 0 → 0 < (iceState w T Tf).1) ∧
  (∀ T2, -273.15 < T2 → T2 ≤ T → T < Tf →
    (iceState w T Tf).1 ≤ (iceState w T2 Tf).1)

/-- C7 amended: for every temperature, freezing point and water
percentage w in [0, 100] the ice state satisfies Xi + Xu = w/100,
0 <= Xi, Xu <= w/100 and Xi = 0 for T >= Tf; the strict positivity of
Xi below Tf additionally needs w > 0 and T < 0 (the clamp XA <= 1 makes
Xi = 0 on [0, Tf) when Tf > 0, and w = 0 gives Xi = 0), and Xi is
non-decreasing as T decreases on the domain above absolute zero (the
XA = 0.0001 guard below it breaks monotonicity there). -/
theorem C7_ice_invariants (w T Tf : ℝ) (h0 : 0 ≤ w) (h100 : w ≤ 100) :
    IceInvariant w T Tf := by
  unfold IceInvariant
  have hbase : ∀ T1 : ℝ, ¬Tf ≤ T1 →
      (iceState w T1 Tf).1 = w / 100 - w / 100 * XA T1 ∧
      (iceState w T1 Tf).2 = w / 100 * XA T1 := by
    intro T1 h1
    unfold iceState
    rw [if_neg h1]
    exact ⟨rfl, rfl⟩
  by_cases h : Tf ≤ T
  · unfold iceState
    rw [if_pos h]
    refine ⟨by ring, le_refl 0, by positivity, by positivity, le_refl _,
            fun _ => rfl, fun _ hlt _ => absurd h (not_le.mpr hlt),
            fun T2 _ _ hlt => absurd h (not_le.mpr hlt)⟩
  · obtain ⟨hXi, hXu⟩ := hbase T h
    have hA0 := XA_pos T
    have hA1 := XA_le_one T
    rw [hXi, hXu]
    refine ⟨by ring, by nlinarith, by nlinarith, by positivity, by nlinarith,
            fun hh => absurd hh h, ?_, ?_⟩
    · intro hw hTf hT0
      have := XA_lt_one T hT0
      nlinarith
    · intro T2 h2a h2b _
      have h2f : ¬Tf ≤ T2 := fun hc => h (le_trans hc h2b)
      obtain ⟨hXi2, _⟩ := hbase T2 h2f
      rw [hXi2]
      have := XA_mono T2 T h2a h2b
      nlinarith

/-- C7 counterexample: the clause that Xi > 0 for T slightly less than Tf fails as
universally stated: with Tf = 5 and T = 4.9 (0.1 below Tf, full water)
the clamp XA = 1 gives Xi = 0, and with no water (w = 0, Tf = -1,
T = -1.5) Xi = 0 as well. -/
theorem C7_counterexample :
    ((4.9:ℝ) < 5) ∧ ((5:ℝ) - 4.9 ≤ 0.1) ∧ (iceState 100 4.9 5).1 = 0 ∧
    ((-1.5:ℝ) < -1) ∧ (iceState 0 (-1.5) (-1)).1 = 0 := by
  refine ⟨by norm_num, by norm_num, ?_, by norm_num, ?_⟩
  · unfold iceState
    rw [if_neg (by norm_num)]
    have h1 : XA 4.9 = 1 := by
      unfold XA
      rw [if_neg (by norm_num)]
      exact min_eq_right (Real.one_le_exp (by norm_num))
    rw [h1]
    norm_num
  · unfold iceState
    rw [if_neg (by norm_num)]
    norm_num

/-- C7 witness: the invariants at w = 80, T = -10, Tf = -1. -/
theorem C7_witness :
    (0:ℝ) ≤ 80 ∧ (80:ℝ) ≤ 100 ∧ IceInvariant 80 (-10) (-1) :=
  ⟨by norm_num, by norm_num, C7_ice_invariants 80 (-10) (-1) (by norm_num) (by norm_num)⟩

/-! ### C10: forward centre temperature is clipped into range -/

/-- C10: with a nonzero characteristic dimension, nonzero conductivity
and distinct initial/medium temperatures, the forward routine succeeds
and the ratio A1*exp(-lambda1^2*Fo) enters only through its clip to
[0, 1], so the returned centre temperature always lies in the closed
interval between T_medio and T_inicial, for every time t (also
negative or tiny times where the unclipped one-term value exceeds 1). -/
theorem C10_forward_clip_bounds (t T_i T_m alpha k h a : ℝ) (g : Geometria)
    (ha : a ≠ 0) (hk : k ≠ 0) (hT : T_i - T_m ≠ 0) :
    ∃ r : HeislerResult,
      calcular_temperatura_final_punto_frio t T_i T_m alpha k h g a = some r ∧
      r.T = T_m + min (max ((calcular_lambda1_A1 (h * a / k) g).2 *
        Real.exp (-(calcular_lambda1_A1 (h * a / k) g).1 ^ 2 *
          (alpha * t / a ^ 2))) 0) 1 * (T_i - T_m) ∧
      min T_m T_i ≤ r.T ∧ r.T ≤ max T_m T_i := by
  unfold calcular_temperatura_final_punto_frio
  rw [if_neg ha, if_neg hk, if_neg hT]
  refine ⟨_, rfl, rfl, ?_, ?_⟩ <;>
    dsimp only <;>
    rcases le_total T_m T_i with hc | hc
  · rw [min_eq_left hc]
    have h0 : 0 ≤ min (max ((calcular_lambda1_A1 (h * a / k) g).2 *
        Real.exp (-(calcular_lambda1_A1 (h * a / k) g).1 ^ 2 *
          (alpha * t / a ^ 2))) 0) 1 := le_min (le_max_right _ _) zero_le_one
    nlinarith
  · rw [min_eq_right hc]
    have h1 : min (max ((calcular_lambda1_A1 (h * a / k) g).2 *
        Real.exp (-(calcular_lambda1_A1 (h * a / k) g).1 ^ 2 *
          (alpha * t / a ^ 2))) 0) 1 ≤ 1 := min_le_right _ _
    nlinarith
  · rw [max_eq_right hc]
    have h1 : min (max ((calcular_lambda1_A1 (h * a / k) g).2 *
        Real.exp (-(calcular_lambda1_A1 (h * a / k) g).1 ^ 2 *
          (alpha * t / a ^ 2))) 0) 1 ≤ 1 := min_le_right _ _
    nlinarith
  · rw [max_eq_left hc]
    have h0 : 0 ≤ min (max ((calcular_lambda1_A1 (h * a / k) g).2 *
        Real.exp (-(calcular_lambda1_A1 (h * a / k) g).1 ^ 2 *
          (alpha * t / a ^ 2))) 0) 1 := le_min (le_max_right _ _) zero_le_one
    nlinarith

/-- C10 witness: the bound at a concrete heating input. -/
theorem C10_witness :
    ∃ r : HeislerResult,
      calcular_temperatura_final_punto_frio 600 20 80 1e-7 0.5 100 Geometria.cilindro 0.02
        = some r ∧
      r.T = 80 + min (max ((calcular_lambda1_A1 (100 * 0.02 / 0.5) Geometria.cilindro).2 *
        Real.exp (-(calcular_lambda1_A1 (100 * 0.02 / 0.5) Geometria.cilindro).1 ^ 2 *
          (1e-7 * 600 / 0.02 ^ 2))) 0) 1 * (20 - 80) ∧
      min 80 20 ≤ r.T ∧ r.T ≤ max 80 20 :=
  C10_forward_clip_bounds 600 20 80 1e-7 0.5 100 0.02 Geometria.cilindro
    (by norm_num) (by norm_num) (by norm_num)

/-! ### C3: spatial position factor -/

/-- C3 amended: the position factor returned by
`calcular_temperatura_posicion` is not the raw geometry function but
its clip to [0, 1], and only two geometries produce one: the slab
factor is clip(cos(lambda1*x/Lc), 0, 1); the sphere factor is
clip(., 0, 1) of 1 under the `np.isclose` tolerance |u| <= 1e-8 and of
sin(u)/u beyond it; at the centre x = 0 the factor is exactly 1 for
slab and sphere.  The cylinder path computes no factor at all: the
source calls `J0 = scipy.special.jv` with one argument, raising an
uncaught `TypeError` (the crash outcome). -/
theorem C3_position_factor (t T_i T_m alpha k h a x : ℝ)
    (ha : a ≠ 0) (hx1 : ¬x > a) (hx0 : ¬x < 0) (hk : k ≠ 0)
    (hT : T_i - T_m ≠ 0) :
    (∃ r : PosResult,
      calcular_temperatura_posicion t T_i T_m alpha k h Geometria.placaPlana a x =
        PosOutcome.ok r ∧
      r.factor = min (max (Real.cos
        ((calcular_lambda1_A1 (h * a / k) Geometria.placaPlana).1 * (x / a))) 0) 1 ∧
      (x = 0 → r.factor = 1)) ∧
    (∃ r : PosResult,
      calcular_temperatura_posicion t T_i T_m alpha k h Geometria.esfera a x =
        PosOutcome.ok r ∧
      r.factor = min (max
        (if |(calcular_lambda1_A1 (h * a / k) Geometria.esfera).1 * (x / a)| ≤ 1e-8
         then 1.0
         else Real.sin ((calcular_lambda1_A1 (h * a / k) Geometria.esfera).1 * (x / a)) /
           ((calcular_lambda1_A1 (h * a / k) Geometria.esfera).1 * (x / a))) 0) 1 ∧
      (x = 0 → r.factor = 1)) ∧
    calcular_temperatura_posicion t T_i T_m alpha k h Geometria.cilindro a x =
      PosOutcome.crash := by
  have hz : ∀ g : Geometria, (calcular_lambda1_A1 (h * a / k) g).1 * ((0:ℝ) / a) = 0 := by
    intro g
    rw [zero_div, mul_zero]
  refine ⟨?_, ?_, ?_⟩
  · unfold calcular_temperatura_posicion
    rw [if_neg ha, if_neg hx1, if_neg hx0, if_neg hk, if_neg hT, if_neg ha]
    refine ⟨_, rfl, rfl, ?_⟩
    intro hx
    subst hx
    rw [hz Geometria.placaPlana, Real.cos_zero]
    norm_num
  · unfold calcular_temperatura_posicion
    rw [if_neg ha, if_neg hx1, if_neg hx0, if_neg hk, if_neg hT, if_neg ha]
    refine ⟨_, rfl, rfl, ?_⟩
    intro hx
    subst hx
    rw [hz Geometria.esfera]
    norm_num
  · unfold calcular_temperatura_posicion
    rw [if_neg ha, if_neg hx1, if_neg hx0, if_neg hk, if_neg hT, if_neg ha]

/-- C3 witness: the slab and sphere centre factors and the cylinder
crash at a concrete input. -/
theorem C3_witness :
    (∃ r : PosResult,
      calcular_temperatura_posicion 60 0 100 1 1 2000 Geometria.placaPlana 1 0 =
        PosOutcome.ok r ∧
      r.factor = min (max (Real.cos
        ((calcular_lambda1_A1 (2000 * 1 / 1) Geometria.placaPlana).1 * (0 / 1))) 0) 1 ∧
      ((0:ℝ) = 0 → r.factor = 1)) ∧
    (∃ r : PosResult,
      calcular_temperatura_posicion 60 0 100 1 1 2000 Geometria.esfera 1 0 =
        PosOutcome.ok r ∧
      r.factor = min (max
        (if |(calcular_lambda1_A1 (2000 * 1 / 1) Geometria.esfera).1 * (0 / 1)| ≤ 1e-8
         then 1.0
         else Real.sin ((calcular_lambda1_A1 (2000 * 1 / 1) Geometria.esfera).1 * (0 / 1)) /
           ((calcular_lambda1_A1 (2000 * 1 / 1) Geometria.esfera).1 * (0 / 1))) 0) 1 ∧
      ((0:ℝ) = 0 → r.factor = 1)) ∧
    calcular_temperatura_posicion 60 0 100 1 1 2000 Geometria.cilindro 1 0 =
      PosOutcome.crash :=
  C3_position_factor 60 0 100 1 1 2000 1 0
    (by norm_num) (by norm_num) (by norm_num) (by norm_num) (by norm_num)

/-- C3 counterexample: at Bi = 100 the slab table gives
lambda1 = 1.5708 > pi/2, so at the surface x = a the raw factor
cos(lambda1 * x/Lc) is negative and the clip returns 0: the returned
position factor does not equal cos(lambda1 * x/Lc). -/
theorem C3_counterexample :
    calcular_temperatura_posicion 1000 0 100 1 1 100 Geometria.placaPlana 1 1 =
      PosOutcome.ok ⟨100, 1000, 100, 1.9780, 1.5708, 0⟩ ∧
    Real.cos ((calcular_lambda1_A1 (100 * 1 / 1) Geometria.placaPlana).1 * (1 / 1)) < 0 := by
  have hl : calcular_lambda1_A1 (100 * 1 / 1) Geometria.placaPlana = (1.5708, 1.9780) := by
    norm_num [calcular_lambda1_A1, interpAux, placa_l1_tab, placa_A1_tab]
  have hcos : Real.cos (1.5708:ℝ) < 0 := by
    apply Real.cos_neg_of_pi_div_two_lt_of_lt
    · have := Real.pi_lt_d6
      linarith
    · have := Real.pi_gt_d6
      linarith
  constructor
  · unfold calcular_temperatura_posicion
    rw [if_neg (by norm_num), if_neg (by norm_num), if_neg (by norm_num),
        if_neg (by norm_num), if_neg (by norm_num), if_neg (by norm_num)]
    rw [hl]
    dsimp only
    have hu : (1.5708:ℝ) * (1 / 1) = 1.5708 := by norm_num
    rw [hu, max_eq_right hcos.le, min_eq_left zero_le_one]
    norm_num [PosOutcome.ok.injEq, PosResult.mk.injEq]
  · rw [hl]
    dsimp only
    have hu : (1.5708:ℝ) * (1 / 1) = 1.5708 := by norm_num
    rw [hu]
    exact hcos

/-! ### C1: Heisler round-trip -/

/-- C1 amended: with the claim's hypotheses (a > 0 is weakened to the
code's own a != 0 guard) and two extra conditions the clip forces --
Fo >= 0 and A1*exp(-lambda1^2*Fo) <= 1, i.e. the one-term ratio not
clipped -- the forward centre temperature fed back into the inverse
solver recovers the time exactly: the solver returns t/60 minutes,
i.e. recovered seconds = t (so any relative tolerance holds). -/
theorem C1_roundtrip_no_clip (T_i T_m alpha k h a t l1 A1 : ℝ) (g : Geometria)
    (hl : (l1, A1) = calcular_lambda1_A1 (h * a / k) g)
    (ha : a ≠ 0) (hk : k ≠ 0) (hal : alpha ≠ 0) (hT : T_i - T_m ≠ 0)
    (hFo : 0 ≤ alpha * t / a ^ 2)
    (hnc : A1 * Real.exp (-l1 ^ 2 * (alpha * t / a ^ 2)) ≤ 1) :
    calcular_temperatura_final_punto_frio t T_i T_m alpha k h g a =
      some ⟨T_m + A1 * Real.exp (-l1 ^ 2 * (alpha * t / a ^ 2)) * (T_i - T_m),
            alpha * t / a ^ 2, h * a / k, A1, l1⟩ ∧
    calcular_tiempo_para_temperatura
        (T_m + A1 * Real.exp (-l1 ^ 2 * (alpha * t / a ^ 2)) * (T_i - T_m))
        T_i T_m alpha k h g a =
      some ⟨t / 60, alpha * t / a ^ 2, h * a / k, A1, l1⟩ := by
  obtain ⟨hl1, hA1⟩ := calcular_lambda1_A1_pos (h * a / k) g
  rw [← hl] at hl1 hA1
  dsimp only at hl1 hA1
  have hv : 0 < A1 * Real.exp (-l1 ^ 2 * (alpha * t / a ^ 2)) :=
    mul_pos hA1 (Real.exp_pos _)
  constructor
  · unfold calcular_temperatura_final_punto_frio
    rw [if_neg ha, if_neg hk, if_neg hT, ← hl]
    dsimp only
    rw [max_eq_left hv.le, min_eq_left hnc]
  · unfold calcular_tiempo_para_temperatura
    have hc1 : ¬(T_m > T_i ∧
        T_m + A1 * Real.exp (-l1 ^ 2 * (alpha * t / a ^ 2)) * (T_i - T_m) < T_i) := by
      rintro ⟨hgt, hlt⟩
      nlinarith [mul_nonneg (sub_nonneg.mpr hnc) (sub_pos.mpr hgt).le]
    have hc2 : ¬(T_m > T_i ∧
        T_m + A1 * Real.exp (-l1 ^ 2 * (alpha * t / a ^ 2)) * (T_i - T_m) > T_m) := by
      rintro ⟨hgt, hlt⟩
      nlinarith [mul_pos hv (sub_pos.mpr hgt)]
    have hc3 : ¬(T_m < T_i ∧
        T_m + A1 * Real.exp (-l1 ^ 2 * (alpha * t / a ^ 2)) * (T_i - T_m) > T_i) := by
      rintro ⟨hgt, hlt⟩
      nlinarith [mul_nonneg (sub_nonneg.mpr hnc) (sub_pos.mpr hgt).le]
    have hc4 : ¬(T_m < T_i ∧
        T_m + A1 * Real.exp (-l1 ^ 2 * (alpha * t / a ^ 2)) * (T_i - T_m) < T_m) := by
      rintro ⟨hgt, hlt⟩
      nlinarith [mul_pos hv (sub_pos.mpr hgt)]
    rw [if_neg ha, if_neg hT, if_neg hc1, if_neg hc2, if_neg hc3, if_neg hc4,
        if_neg hk, if_neg hT, ← hl]
    dsimp only
    have harg : (T_m + A1 * Real.exp (-l1 ^ 2 * (alpha * t / a ^ 2)) * (T_i - T_m) - T_m) /
        (T_i - T_m) / A1 = Real.exp (-l1 ^ 2 * (alpha * t / a ^ 2)) := by
      field_simp
    rw [harg, if_neg (not_le.mpr (Real.exp_pos _))]
    have hFoEq : -(1 / l1 ^ 2) * Real.log (Real.exp (-l1 ^ 2 * (alpha * t / a ^ 2))) =
        alpha * t / a ^ 2 := by
      rw [Real.log_exp]
      field_simp
    rw [hFoEq, if_neg (not_lt.mpr hFo), if_neg hal]
    have ht : alpha * t / a ^ 2 * a ^ 2 / alpha / 60 = t / 60 := by
      field_simp
    rw [ht]


/-- C1 counterexample: with slab geometry, Bi = 2000, Lc = 1, alpha = 1,
T_inicial = 0, T_medio = 100, the forward routine at t = 0.01 s clips
A1*exp(-lambda1^2*Fo) = (4/pi)*exp(-pi^2/400) > 1 down to 1 and returns
exactly T_inicial = 0; feeding 0 back, the inverse solver returns
(4/pi^2)*ln(4/pi) seconds (about 0.098 s), which misses the original
t = 0.01 s by far more than the 1e-6 relative tolerance. -/
theorem C1_counterexample :
    calcular_temperatura_final_punto_frio 0.01 0 100 1 1 2000 Geometria.placaPlana 1 =
      some ⟨0, 0.01, 2000, 4 / Real.pi, Real.pi / 2⟩ ∧
    calcular_tiempo_para_temperatura 0 0 100 1 1 2000 Geometria.placaPlana 1 =
      some ⟨4 / Real.pi ^ 2 * Real.log (4 / Real.pi) / 60,
            4 / Real.pi ^ 2 * Real.log (4 / Real.pi), 2000, 4 / Real.pi, Real.pi / 2⟩ ∧
    1e-6 * 0.01 < |4 / Real.pi ^ 2 * Real.log (4 / Real.pi) - 0.01| := by
  have hp := Real.pi_pos
  have hpi6 := Real.pi_gt_d6
  have hpi6' := Real.pi_lt_d6
  have hpisq : Real.pi ^ 2 < 9.8697 := by nlinarith
  have hl : calcular_lambda1_A1 (2000 * 1 / 1) Geometria.placaPlana =
      (Real.pi / 2, 4 / Real.pi) := by
    unfold calcular_lambda1_A1
    rw [if_neg (by norm_num), if_pos (by norm_num)]
  have hlog_eq : Real.log (Real.pi / 4) = -Real.log (4 / Real.pi) := by
    rw [show Real.pi / 4 = (4 / Real.pi)⁻¹ by rw [inv_div], Real.log_inv]
  refine ⟨?_, ?_, ?_⟩
  · unfold calcular_temperatura_final_punto_frio
    rw [if_neg (by norm_num), if_neg (by norm_num), if_neg (by norm_num), hl]
    dsimp only
    have hge1 : 1 ≤ 4 / Real.pi * Real.exp (-(Real.pi / 2) ^ 2 * (1 * 0.01 / 1 ^ 2)) := by
      have hexparg : -(Real.pi / 2) ^ 2 * ((1:ℝ) * 0.01 / 1 ^ 2) =
          -(Real.pi ^ 2 / 400) := by ring
      rw [hexparg]
      have hexp := Real.add_one_le_exp (-(Real.pi ^ 2 / 400))
      rw [div_mul_eq_mul_div, le_div_iff₀ hp]
      nlinarith
    have hv0 : (0:ℝ) ≤ 4 / Real.pi * Real.exp (-(Real.pi / 2) ^ 2 * (1 * 0.01 / 1 ^ 2)) := by
      positivity
    rw [max_eq_left hv0, min_eq_right hge1]
    norm_num [Option.some.injEq, HeislerResult.mk.injEq]
  · unfold calcular_tiempo_para_temperatura
    rw [if_neg (by norm_num), if_neg (by norm_num), if_neg (by norm_num),
        if_neg (by norm_num), if_neg (by norm_num), if_neg (by norm_num),
        if_neg (by norm_num), if_neg (by norm_num), hl]
    dsimp only
    have hla : ((0:ℝ) - 100) / ((0:ℝ) - 100) / (4 / Real.pi) = Real.pi / 4 := by
      rw [div_self (by norm_num), one_div_div]
    rw [hla, if_neg (not_le.mpr (by positivity))]
    have hFoval : -(1 / (Real.pi / 2) ^ 2) * Real.log (Real.pi / 4) =
        4 / Real.pi ^ 2 * Real.log (4 / Real.pi) := by
      rw [hlog_eq]
      ring
    rw [hFoval]
    have hlogpos : 0 < Real.log (4 / Real.pi) :=
      Real.log_pos ((one_lt_div hp).mpr (by nlinarith))
    have hFopos : 0 < 4 / Real.pi ^ 2 * Real.log (4 / Real.pi) := by positivity
    rw [if_neg (not_lt.mpr hFopos.le), if_neg (by norm_num)]
    norm_num [Option.some.injEq, TiempoResult.mk.injEq]
  · have h1 : Real.log (Real.pi / 4) ≤ Real.pi / 4 - 1 :=
      Real.log_le_sub_one_of_pos (by positivity)
    have hlog_lb : 1 - Real.pi / 4 ≤ Real.log (4 / Real.pi) := by
      rw [hlog_eq] at h1
      linarith
    have hmul : 4 / Real.pi ^ 2 * (1 - Real.pi / 4) ≤
        4 / Real.pi ^ 2 * Real.log (4 / Real.pi) :=
      mul_le_mul_of_nonneg_left hlog_lb (by positivity)
    have hq : (0:ℝ) < Real.pi ^ 2 := by positivity
    have h2 : (0.0869:ℝ) < 4 / Real.pi ^ 2 * (1 - Real.pi / 4) := by
      rw [div_mul_eq_mul_div, lt_div_iff₀ hq]
      nlinarith
    have hX : (0.0869:ℝ) < 4 / Real.pi ^ 2 * Real.log (4 / Real.pi) := by linarith
    rw [abs_of_pos (by linarith)]
    linarith


/-- C1 witness: the exact round trip at slab geometry, Bi = 2000,
t = 1 s, where the ratio is below 1 and no clip occurs. -/
theorem C1_witness :
    calcular_temperatura_final_punto_frio 1 0 100 1 1 2000 Geometria.placaPlana 1 =
      some ⟨100 + 4 / Real.pi * Real.exp (-(Real.pi / 2) ^ 2 * (1 * 1 / 1 ^ 2)) * (0 - 100),
            1 * 1 / 1 ^ 2, 2000 * 1 / 1, 4 / Real.pi, Real.pi / 2⟩ ∧
    calcular_tiempo_para_temperatura
        (100 + 4 / Real.pi * Real.exp (-(Real.pi / 2) ^ 2 * (1 * 1 / 1 ^ 2)) * (0 - 100))
        0 100 1 1 2000 Geometria.placaPlana 1 =
      some ⟨1 / 60, 1 * 1 / 1 ^ 2, 2000 * 1 / 1, 4 / Real.pi, Real.pi / 2⟩ :=
  C1_roundtrip_no_clip 0 100 1 1 2000 1 1 (Real.pi / 2) (4 / Real.pi) Geometria.placaPlana
    (by unfold calcular_lambda1_A1; rw [if_neg (by norm_num), if_pos (by norm_num)])
    (by norm_num) (by norm_num) (by norm_num) (by norm_num) (by norm_num)
    (by
      have hp := Real.pi_pos
      have harg : -(Real.pi / 2) ^ 2 * ((1:ℝ) * 1 / 1 ^ 2) = -(Real.pi ^ 2 / 4) := by
        ring
      rw [harg, Real.exp_neg]
      have hexp := Real.add_one_le_exp (Real.pi ^ 2 / 4)
      have hE0 := Real.exp_pos (Real.pi ^ 2 / 4)
      have key : 4 / Real.pi * (Real.exp (Real.pi ^ 2 / 4))⁻¹ =
          4 / (Real.pi * Real.exp (Real.pi ^ 2 / 4)) := by
        field_simp
      rw [key, div_le_one (by positivity)]
      nlinarith [Real.pi_gt_three])
